import Mathlib

/-!
Shallow embedding of the core control-loop logic of the tsla-neutral bot
(TypeScript sources under src/src/bots/tsla_neutral/), together with proofs
of the specified properties.

Conventions of the embedding:
* JS numbers that the claims exercise only on exact decimal values are
  modelled as rationals (ℚ); machine-float rounding is irrelevant to the
  compared quantities at the scales involved.
* Wall-clock instants (Date.now(), new Date()) are passed explicitly as a
  millisecond timestamp parameter; within a single function call the two
  clock reads of the source are nanoseconds apart and are modelled as one
  instant.
* External stores (Redis) are modelled by passing the relevant stored value
  in and returning the value after the call.
* Side effects on metrics gauges are modelled as an explicit list of written
  values returned alongside the result.
-/

namespace TslaNeutral

/-- Embeds enum BotState (src/src/bots/tsla_neutral/types.ts, lines 6-15). -/
inductive BotState where
  | IDLE
  | OPENING_LP
  | HEDGING
  | REBALANCING
  | CLOSING_LP
  | CLOSING_HEDGE
  | ERROR_RECOVERY
  | SHUTTING_DOWN
deriving DecidableEq, Repr

/-- Embeds interface StateMachineState (types.ts, lines 17-27).
Numeric fields are rationals; nullable fields are options. -/
structure StateMachineState where
  currentState : BotState
  lpPositionMint : Option String
  hedgePositionId : Option String
  lastLpDelta : ℚ
  lastHedgeDelta : ℚ
  lastRebalanceTime : ℚ
  outOfRangeSince : Option ℚ
  consecutiveFailures : ℕ
  lastError : Option String
deriving DecidableEq, Repr

/-- Embeds getDefaultState (state_machine.ts, lines 24-36). -/
def getDefaultState : StateMachineState :=
  { currentState := BotState.IDLE
    lpPositionMint := none
    hedgePositionId := none
    lastLpDelta := 0
    lastHedgeDelta := 0
    lastRebalanceTime := 0
    outOfRangeSince := none
    consecutiveFailures := 0
    lastError := none }

/-- Models the outcome of reading the state key from Redis and attempting to
parse it, as seen by loadState (state_machine.ts, lines 41-59):
`absent` is a null/empty reply (the falsy test on line 45), `unparseable`
is a stored string on which JSON.parse throws, `parsed s` is a stored
string that parses to snapshot `s`. -/
inductive StoredState where
  | absent
  | unparseable
  | parsed (s : StateMachineState)
deriving DecidableEq, Repr

/-- Embeds loadState (state_machine.ts, lines 41-59): the absent branch and
the catch branch both return getDefaultState, otherwise the parsed snapshot
is returned. -/
def loadState : StoredState → StateMachineState
  | StoredState.absent => getDefaultState
  | StoredState.unparseable => getDefaultState
  | StoredState.parsed s => s

/-- Models the `updates: Partial<StateMachineState>` argument of
transitionState (state_machine.ts, line 76): each present field overrides
the corresponding field of the base snapshot, as the object spread
`\x7b...current, ...updates\x7d` does. -/
structure StateUpdates where
  currentState : Option BotState := none
  lpPositionMint : Option (Option String) := none
  hedgePositionId : Option (Option String) := none
  lastLpDelta : Option ℚ := none
  lastHedgeDelta : Option ℚ := none
  lastRebalanceTime : Option ℚ := none
  outOfRangeSince : Option (Option ℚ) := none
  consecutiveFailures : Option ℕ := none
  lastError : Option (Option String) := none

/-- Field-wise application of a Partial update, the object spread of
state_machine.ts, lines 80-84. -/
def applyUpdates (s : StateMachineState) (u : StateUpdates) : StateMachineState :=
  { currentState := u.currentState.getD s.currentState
    lpPositionMint := u.lpPositionMint.getD s.lpPositionMint
    hedgePositionId := u.hedgePositionId.getD s.hedgePositionId
    lastLpDelta := u.lastLpDelta.getD s.lastLpDelta
    lastHedgeDelta := u.lastHedgeDelta.getD s.lastHedgeDelta
    lastRebalanceTime := u.lastRebalanceTime.getD s.lastRebalanceTime
    outOfRangeSince := u.outOfRangeSince.getD s.outOfRangeSince
    consecutiveFailures := u.consecutiveFailures.getD s.consecutiveFailures
    lastError := u.lastError.getD s.lastError }

/-- Embeds transitionState (state_machine.ts, lines 73-96), the returned
snapshot `\x7b...current, ...updates, currentState: newState\x7d`; the awaited
saveState persists exactly this returned snapshot. -/
def transitionState (currentState : StateMachineState) (newState : BotState)
    (updates : StateUpdates) : StateMachineState :=
  { applyUpdates currentState updates with currentState := newState }

/-- Embeds recordFailure (state_machine.ts, lines 101-118). -/
def recordFailure (currentState : StateMachineState) (error : String) :
    StateMachineState :=
  let consecutiveFailures := currentState.consecutiveFailures + 1
  if consecutiveFailures ≥ 5 then
    transitionState currentState BotState.ERROR_RECOVERY
      { consecutiveFailures := some consecutiveFailures
        lastError := some (some error) }
  else
    transitionState currentState currentState.currentState
      { consecutiveFailures := some consecutiveFailures
        lastError := some (some error) }

/-- Embeds the local fields of class DistributedLock
(infra/distributed_lock.ts, lines 6-15). -/
structure DistributedLock where
  lockKey : String
  lockValue : String
  isHeld : Bool
deriving DecidableEq, Repr

/-- Result of DistributedLock.release: the returned boolean, the value stored
under lockKey after the call (none = key deleted/absent), and the updated
instance fields. -/
structure ReleaseResult where
  returned : Bool
  stored : Option String
  lock : DistributedLock
deriving DecidableEq, Repr

/-- Embeds DistributedLock.release (distributed_lock.ts, lines 40-59).
`stored` is the value under lockKey in Redis when the call runs. The Lua
script (lines 48-54) atomically deletes the key and yields 1 iff the stored
value equals this instance's lockValue, else yields 0 and leaves the key;
line 57 then sets isHeld to (result == 1), which is also the return value.
If isHeld is already false the store is not contacted (line 41). -/
def DistributedLock.release (l : DistributedLock) (stored : Option String) :
    ReleaseResult :=
  if l.isHeld = false then
    { returned := false, stored := stored, lock := l }
  else
    let luaResult : ℕ := if stored = some l.lockValue then 1 else 0
    let storedAfter : Option String :=
      if stored = some l.lockValue then none else stored
    { returned := decide (luaResult = 1)
      stored := storedAfter
      lock := { l with isHeld := decide (luaResult = 1) } }

/-- Embeds DistributedLock.getStatus (distributed_lock.ts, lines 121-127). -/
structure LockStatus where
  isHeld : Bool
  lockKey : String
  lockValue : String
deriving DecidableEq, Repr

/-- Embeds the getStatus body (distributed_lock.ts, lines 121-127). -/
def DistributedLock.getStatus (l : DistributedLock) : LockStatus :=
  { isHeld := l.isHeld, lockKey := l.lockKey, lockValue := l.lockValue }

/-- Embeds the configuration fields consumed by the components under proof
(config.ts). The two quiet-hour bounds are kept as the (hour, minute) pairs
produced by splitting the configured string on the colon and applying
Number to each half (utils/clock.ts, lines 11-12). -/
structure BotConfig where
  DELTA_DRIFT_THRESHOLD_PERCENT : ℚ
  MAX_OUT_OF_RANGE_DURATION_MS : ℚ
  MAX_GAS_COST_PER_REBALANCE_SOL : ℚ
  QUIET_HOURS_START_UTC : ℤ × ℤ
  QUIET_HOURS_END_UTC : ℤ × ℤ
  LOOP_INTERVAL_MS : ℚ
  BACKOFF_INITIAL_MS : ℚ
  BACKOFF_MAX_MS : ℚ
  BACKOFF_MULTIPLIER : ℚ
deriving DecidableEq, Repr

/-- The default values of config.ts for the embedded fields (lines 92,
96-97, 109, 111-112, 117-119); quiet hours default to 14:30-15:15 UTC. -/
def defaultConfig : BotConfig :=
  { DELTA_DRIFT_THRESHOLD_PERCENT := 0.05
    MAX_OUT_OF_RANGE_DURATION_MS := 3600000
    MAX_GAS_COST_PER_REBALANCE_SOL := 0.05
    QUIET_HOURS_START_UTC := (14, 30)
    QUIET_HOURS_END_UTC := (15, 15)
    LOOP_INTERVAL_MS := 10000
    BACKOFF_INITIAL_MS := 1000
    BACKOFF_MAX_MS := 60000
    BACKOFF_MULTIPLIER := 2 }

/-- Minutes-of-day decomposition of a JS Date: for a timestamp of `nowMs`
milliseconds since the epoch, getUTCHours() * 60 + getUTCMinutes() equals
the floored minute count modulo one day (utils/clock.ts, lines 8-9). -/
def utcMinutesOfDay (nowMs : ℚ) : ℤ :=
  (⌊nowMs / 60000⌋) % 1440

/-- Embeds isQuietHours (utils/clock.ts, lines 7-18): the current UTC
minutes-of-day is compared inclusively against the parsed start and end
bounds. The clock read is the explicit `currentUTC` argument. -/
def isQuietHours (cfg : BotConfig) (currentUTC : ℤ) : Bool :=
  let startMinutes := cfg.QUIET_HOURS_START_UTC.1 * 60 + cfg.QUIET_HOURS_START_UTC.2
  let endMinutes := cfg.QUIET_HOURS_END_UTC.1 * 60 + cfg.QUIET_HOURS_END_UTC.2
  decide (currentUTC ≥ startMinutes ∧ currentUTC ≤ endMinutes)

/-- LAMPORTS_PER_SOL of @solana/web3.js. -/
def LAMPORTS_PER_SOL : ℚ := 1000000000

/-- Embeds isGasCostAcceptable (utils/sol_reserve.ts, lines 43-46). -/
def isGasCostAcceptable (cfg : BotConfig) (estimatedCostLamports : ℚ) : Bool :=
  let maxCostLamports := cfg.MAX_GAS_COST_PER_REBALANCE_SOL * LAMPORTS_PER_SOL
  decide (estimatedCostLamports ≤ maxCostLamports)

/-- Embeds calculateNetDelta (strategy/risk_manager.ts, lines 14-18). -/
def calculateNetDelta (lpDelta hedgeDelta : ℚ) : ℚ :=
  lpDelta + hedgeDelta

/-- The block-reason strings built by evaluateRebalance
(risk_manager.ts, lines 126, 140, 154), kept structurally: the template
together with its interpolated value, avoiding a model of JS
number-to-string formatting. -/
inductive BlockReason where
  | currentStateIs (s : BotState)
  | withinQuietHours
  | gasCostExceedsLimit (estimatedGasCost : ℚ)
deriving DecidableEq, Repr

/-- Embeds interface RebalanceDecision (types.ts, lines 72-82). -/
structure RebalanceDecision where
  shouldRebalance : Bool
  reason : String
  currentDelta : ℚ
  targetDelta : ℚ
  sizeToAdjust : ℚ
  estimatedSlippage : ℚ
  estimatedGasCost : ℚ
  blocked : Bool
  blockReason : Option BlockReason := none
deriving DecidableEq, Repr

/-- A call of evaluateRebalance yields a decision and performs gauge
writes: the values passed to deltaGauge.set (risk_manager.ts, line 113). -/
structure EvalResult where
  decision : RebalanceDecision
  deltaGaugeWrites : List ℚ
deriving DecidableEq, Repr

/-- Embeds the nested out-of-range test of evaluateRebalance
(risk_manager.ts, lines 159-161): the outer condition is
`!isLpInRange && state.outOfRangeSince`, where the second conjunct is the
JS truthiness of a `number | null` field — false for null and for 0; the
inner condition compares `Date.now() - outOfRangeSince` strictly against
the configured maximum duration. -/
def outOfRangeTooLongCheck (outOfRangeSince : Option ℚ) (isLpInRange : Bool)
    (now maxDurationMs : ℚ) : Bool :=
  match isLpInRange, outOfRangeSince with
  | false, some t0 =>
      if t0 = 0 then false else decide (now - t0 > maxDurationMs)
  | _, _ => false

/-- Embeds evaluateRebalance (risk_manager.ts, lines 103-199). `now` is the
wall-clock instant at which the call runs: it feeds both the isQuietHours
read of the clock (line 130) and the Date.now() of the out-of-range check
(line 160). The single deltaGauge.set(netDelta) of line 113 appears as the
one element of deltaGaugeWrites. -/
def evaluateRebalance (cfg : BotConfig) (now : ℚ) (state : StateMachineState)
    (lpDelta hedgeDelta estimatedGasCost : ℚ) (isLpInRange : Bool) :
    EvalResult :=
  let netDelta := calculateNetDelta lpDelta hedgeDelta
  let driftPercent := |netDelta| / max |lpDelta| 1
  let writes := [netDelta]
  if state.currentState ≠ BotState.IDLE then
    { decision :=
        { shouldRebalance := false
          reason := "not_idle"
          currentDelta := netDelta
          targetDelta := 0
          sizeToAdjust := 0
          estimatedSlippage := 0
          estimatedGasCost := estimatedGasCost
          blocked := true
          blockReason := some (BlockReason.currentStateIs state.currentState) }
      deltaGaugeWrites := writes }
  else if isQuietHours cfg (utcMinutesOfDay now) then
    { decision :=
        { shouldRebalance := false
          reason := "quiet_hours"
          currentDelta := netDelta
          targetDelta := 0
          sizeToAdjust := 0
          estimatedSlippage := 0
          estimatedGasCost := estimatedGasCost
          blocked := true
          blockReason := some BlockReason.withinQuietHours }
      deltaGaugeWrites := writes }
  else if isGasCostAcceptable cfg estimatedGasCost = false then
    { decision :=
        { shouldRebalance := false
          reason := "gas_too_high"
          currentDelta := netDelta
          targetDelta := 0
          sizeToAdjust := 0
          estimatedSlippage := 0
          estimatedGasCost := estimatedGasCost
          blocked := true
          blockReason := some (BlockReason.gasCostExceedsLimit estimatedGasCost) }
      deltaGaugeWrites := writes }
  else if outOfRangeTooLongCheck state.outOfRangeSince isLpInRange now
      cfg.MAX_OUT_OF_RANGE_DURATION_MS then
    { decision :=
        { shouldRebalance := true
          reason := "out_of_range_too_long"
          currentDelta := netDelta
          targetDelta := 0
          sizeToAdjust := -hedgeDelta
          estimatedSlippage := 0
          estimatedGasCost := estimatedGasCost
          blocked := false }
      deltaGaugeWrites := writes }
  else if driftPercent ≥ cfg.DELTA_DRIFT_THRESHOLD_PERCENT then
    { decision :=
        { shouldRebalance := true
          reason := "delta_drift"
          currentDelta := netDelta
          targetDelta := 0
          sizeToAdjust := netDelta
          estimatedSlippage := 0
          estimatedGasCost := estimatedGasCost
          blocked := false }
      deltaGaugeWrites := writes }
  else
    { decision :=
        { shouldRebalance := false
          reason := "within_threshold"
          currentDelta := netDelta
          targetDelta := 0
          sizeToAdjust := 0
          estimatedSlippage := 0
          estimatedGasCost := estimatedGasCost
          blocked := false }
      deltaGaugeWrites := writes }

/-- Embeds the fields of class Backoff (utils/backoff.ts, lines 6-21):
currentDelay is the running delay, the other three are the readonly
construction parameters. -/
structure Backoff where
  currentDelay : ℚ
  initialDelay : ℚ
  maxDelay : ℚ
  multiplier : ℚ
deriving DecidableEq, Repr

/-- The Backoff constructor (backoff.ts, lines 12-21): currentDelay starts
at initialDelay. -/
def mkBackoff (initialDelay maxDelay multiplier : ℚ) : Backoff :=
  { currentDelay := initialDelay
    initialDelay := initialDelay
    maxDelay := maxDelay
    multiplier := multiplier }

/-- The constructor with its config defaults (backoff.ts, lines 12-16),
as used by the orchestrator field initializer. -/
def mkBackoffFromConfig (cfg : BotConfig) : Backoff :=
  mkBackoff cfg.BACKOFF_INITIAL_MS cfg.BACKOFF_MAX_MS cfg.BACKOFF_MULTIPLIER

/-- JS Math.round: nearest integer, ties rounding toward positive
infinity, i.e. the floor of x + 1/2. -/
def jsRound (x : ℚ) : ℤ :=
  ⌊x + 1 / 2⌋

/-- Embeds Backoff.getNextDelay (backoff.ts, lines 26-36). `rand` is the
value returned by the Math.random() call of line 29, a number in [0, 1).
Returns the emitted (rounded) delay and the updated instance. -/
def Backoff.getNextDelay (b : Backoff) (rand : ℚ) : ℤ × Backoff :=
  let delay := b.currentDelay
  let jitter := delay * 0.25 * (rand * 2 - 1)
  let delayWithJitter := max b.initialDelay (delay + jitter)
  let next := { b with currentDelay := min (b.currentDelay * b.multiplier) b.maxDelay }
  (jsRound delayWithJitter, next)

/-- Embeds Backoff.reset (backoff.ts, lines 41-43). -/
def Backoff.reset (b : Backoff) : Backoff :=
  { b with currentDelay := b.initialDelay }

/-- The state update performed by one getNextDelay call (backoff.ts,
line 33); it does not depend on the sampled jitter. -/
def Backoff.step (b : Backoff) : Backoff :=
  { b with currentDelay := min (b.currentDelay * b.multiplier) b.maxDelay }

/-- The Backoff instance after n getNextDelay calls. -/
def Backoff.iterate (b : Backoff) : ℕ → Backoff
  | 0 => b
  | n + 1 => (b.iterate n).step

/-- Outcome of one runCycle() call as observed by the main loop of
Orchestrator.start (strategy/orchestrator.ts, lines 118-131): either it
returned normally or an exception escaped with the given message. -/
inductive CycleOutcome where
  | ok
  | err (message : String)
deriving DecidableEq, Repr

/-- The externally visible waiting/recording actions of one main-loop
iteration (orchestrator.ts, lines 114-140), in execution order. -/
inductive LoopEvent where
  | recordedFailure (message : String)
  | backoffWaited (delayMs : ℤ)
  | sleptFixedInterval (ms : ℚ)
deriving DecidableEq, Repr

/-- The orchestrator fields the loop body touches (orchestrator.ts,
lines 28-30): the persisted bot state (null until initialize ran) and the
backoff instance. -/
structure OrchestratorModel where
  state : Option StateMachineState
  backoff : Backoff
deriving DecidableEq, Repr

/-- Inputs resolving the nondeterminism of one loop iteration:
the outcome of runCycle, the monotonic-clock time in ms consumed by the
iteration apart from the backoff wait (runCycle itself plus the
recordFailure round-trip), and the Math.random() sample consumed by
backoff.wait() on the error path. -/
structure LoopIterationInput where
  outcome : CycleOutcome
  otherElapsedMs : ℚ
  backoffRand : ℚ
deriving DecidableEq, Repr

/-- Embeds one iteration of the while loop of Orchestrator.start
(orchestrator.ts, lines 114-140), with isRunning still true throughout:
on a normal runCycle return the backoff is reset (line 120); on an escaped
exception the failure is recorded when state is non-null (lines 125-127)
and backoff.wait() awaits the next jittered delay (line 130); afterwards,
on both paths, cycleDuration is the monotonic time since cycleStart —
which includes any backoff wait — and the loop sleeps the remainder
max(0, LOOP_INTERVAL_MS - cycleDuration) if positive (lines 134-139). -/
def loopIteration (cfg : BotConfig) (m : OrchestratorModel)
    (inp : LoopIterationInput) : OrchestratorModel × List LoopEvent :=
  match inp.outcome with
  | CycleOutcome.ok =>
      let m2 : OrchestratorModel := { m with backoff := m.backoff.reset }
      let cycleDuration := inp.otherElapsedMs
      let sleepTime := max 0 (cfg.LOOP_INTERVAL_MS - cycleDuration)
      (m2, if sleepTime > 0 then [LoopEvent.sleptFixedInterval sleepTime] else [])
  | CycleOutcome.err msg =>
      let state2 := m.state.map (fun s => recordFailure s msg)
      let emitted := m.backoff.getNextDelay inp.backoffRand
      let failureEvents :=
        match m.state with
        | some _ => [LoopEvent.recordedFailure msg]
        | none => []
      let cycleDuration := inp.otherElapsedMs + (emitted.1 : ℚ)
      let sleepTime := max 0 (cfg.LOOP_INTERVAL_MS - cycleDuration)
      ({ state := state2, backoff := emitted.2 },
        failureEvents ++ [LoopEvent.backoffWaited emitted.1] ++
          (if sleepTime > 0 then [LoopEvent.sleptFixedInterval sleepTime] else []))

/-! Theorems. -/

/-- C1: DistributedLock.release() deletes the lock key only if the value
currently stored under the key equals this instance's holder token, and it
returns true exactly when that delete actually happened; invoked when the
stored token is stale or belongs to another holder it returns false and
leaves the stored record untouched. -/
theorem release_compare_and_delete (l : DistributedLock) (stored : Option String) :
    ((l.release stored).returned = true ↔
      l.isHeld = true ∧ stored = some l.lockValue) ∧
    ((l.release stored).returned = true → (l.release stored).stored = none) ∧
    ((l.release stored).returned = false → (l.release stored).stored = stored) ∧
    ((l.release stored).stored ≠ stored → stored = some l.lockValue) := by
  cases hHeld : l.isHeld <;>
    by_cases hMatch : stored = some l.lockValue <;>
      simp [DistributedLock.release, hHeld, hMatch]

/-- Witness for C1: a held lock whose token matches the stored value has its
key deleted by release(). -/
theorem release_compare_and_delete_witness :
    (DistributedLock.release
      { lockKey := "tsla_neutral:lock:main", lockValue := "tok", isHeld := true }
      (some "tok")).stored = none := by
  refine (release_compare_and_delete
    { lockKey := "tsla_neutral:lock:main", lockValue := "tok", isHeld := true }
    (some "tok")).2.1 ?hret
  rfl

/-- C9: when release() runs while the local isHeld flag is true, afterwards
getStatus().isHeld equals release's returned boolean: a release whose
compare-and-delete succeeded leaves the instance still reporting the lock as
held, and only a release whose compare-and-delete failed clears the flag. -/
theorem release_status_flag (l : DistributedLock) (stored : Option String)
    (hHeld : l.isHeld = true) :
    (((l.release stored).lock.getStatus).isHeld = (l.release stored).returned) ∧
    (stored = some l.lockValue →
      ((l.release stored).lock.getStatus).isHeld = true ∧
      (l.release stored).returned = true) ∧
    (stored ≠ some l.lockValue →
      ((l.release stored).lock.getStatus).isHeld = false ∧
      (l.release stored).returned = false) := by
  by_cases hMatch : stored = some l.lockValue <;>
    simp [DistributedLock.release, DistributedLock.getStatus, hHeld, hMatch]

/-- Witness for C9: after a successful compare-and-delete the instance still
reports itself as holding the lock. -/
theorem release_status_flag_witness :
    ((DistributedLock.release
        { lockKey := "tsla_neutral:lock:main", lockValue := "tok", isHeld := true }
        (some "tok")).lock.getStatus).isHeld = true := by
  exact ((release_status_flag
    { lockKey := "tsla_neutral:lock:main", lockValue := "tok", isHeld := true }
    (some "tok") rfl).2.1 rfl).1

/-- C4: recordFailure(s, e) returns a state with consecutiveFailures
incremented and lastError = e, whose currentState is ERROR_RECOVERY exactly
when the incremented count reaches the escalation threshold 5 and is
s.currentState otherwise; five consecutive recordFailure calls from the
clean IDLE default state yield ERROR_RECOVERY with consecutiveFailures 5. -/
theorem recordFailure_escalation :
    (∀ (s : StateMachineState) (e : String),
      (recordFailure s e).consecutiveFailures = s.consecutiveFailures + 1 ∧
      (recordFailure s e).lastError = some e ∧
      (recordFailure s e).currentState =
        (if s.consecutiveFailures + 1 ≥ 5 then BotState.ERROR_RECOVERY
         else s.currentState)) ∧
    (recordFailure (recordFailure (recordFailure (recordFailure
        (recordFailure getDefaultState "e1") "e2") "e3") "e4") "e5").currentState
      = BotState.ERROR_RECOVERY ∧
    (recordFailure (recordFailure (recordFailure (recordFailure
        (recordFailure getDefaultState "e1") "e2") "e3") "e4") "e5").consecutiveFailures
      = 5 := by
  refine ⟨fun s e => ?general, ?esc, ?count⟩
  case general =>
    by_cases h : s.consecutiveFailures + 1 ≥ 5 <;>
      simp [recordFailure, transitionState, applyUpdates, h]
  case esc =>
    simp [recordFailure, transitionState, applyUpdates, getDefaultState]
  case count =>
    simp [recordFailure, transitionState, applyUpdates, getDefaultState]

/-- C5: loadState returns the persisted snapshot when present and readable;
on an absent value, and equally on a parse failure, it returns the fresh
default snapshot with IDLE state, null references, zeroed counters and null
error. -/
theorem loadState_default :
    loadState StoredState.absent = getDefaultState ∧
    loadState StoredState.unparseable = getDefaultState ∧
    (∀ s, loadState (StoredState.parsed s) = s) ∧
    getDefaultState =
      { currentState := BotState.IDLE
        lpPositionMint := none
        hedgePositionId := none
        lastLpDelta := 0
        lastHedgeDelta := 0
        lastRebalanceTime := 0
        outOfRangeSince := none
        consecutiveFailures := 0
        lastError := none } :=
  ⟨rfl, rfl, fun _ => rfl, rfl⟩

/-- C10: isQuietHours() returns true exactly when the current UTC time of
day in minutes lies in the inclusive interval from the parsed start bound to
the parsed end bound; for every configuration whose start bound is later
than its end bound the function returns false at every time of day, so such
a window never produces a quiet_hours block. -/
theorem isQuietHours_inclusive_window :
    (∀ (cfg : BotConfig) (currentUTC : ℤ),
      isQuietHours cfg currentUTC = true ↔
        cfg.QUIET_HOURS_START_UTC.1 * 60 + cfg.QUIET_HOURS_START_UTC.2 ≤ currentUTC ∧
        currentUTC ≤ cfg.QUIET_HOURS_END_UTC.1 * 60 + cfg.QUIET_HOURS_END_UTC.2) ∧
    (∀ (cfg : BotConfig) (currentUTC : ℤ),
      cfg.QUIET_HOURS_END_UTC.1 * 60 + cfg.QUIET_HOURS_END_UTC.2 <
        cfg.QUIET_HOURS_START_UTC.1 * 60 + cfg.QUIET_HOURS_START_UTC.2 →
      isQuietHours cfg currentUTC = false) ∧
    (∀ (cfg : BotConfig),
      cfg.QUIET_HOURS_END_UTC.1 * 60 + cfg.QUIET_HOURS_END_UTC.2 <
        cfg.QUIET_HOURS_START_UTC.1 * 60 + cfg.QUIET_HOURS_START_UTC.2 →
      ∀ (now : ℚ) (s : StateMachineState) (lp hd gas : ℚ) (r : Bool),
        (evaluateRebalance cfg now s lp hd gas r).decision.reason ≠ "quiet_hours") := by
  refine ⟨fun cfg cur => ?p1, fun cfg cur h => ?p2, fun cfg h now s lp hd gas r => ?p3⟩
  case p1 => simp [isQuietHours]
  case p2 =>
    simp only [isQuietHours, decide_eq_false_iff_not]
    intro hc
    omega
  case p3 =>
    have hq : isQuietHours cfg (utcMinutesOfDay now) = false := by
      simp only [isQuietHours, decide_eq_false_iff_not]
      intro hc
      omega
    unfold evaluateRebalance
    split_ifs <;> simp_all <;> split_ifs <;> simp_all

/-- Witness for C10: with start 23:00 and end 01:00 the window is inverted
and noon UTC is reported outside quiet hours. -/
theorem isQuietHours_inclusive_window_witness :
    isQuietHours
      { defaultConfig with
        QUIET_HOURS_START_UTC := (23, 0), QUIET_HOURS_END_UTC := (1, 0) }
      720 = false := by
  refine isQuietHours_inclusive_window.2.1 _ 720 ?hInv
  norm_num

/-- C2: evaluateRebalance checks its conditions in a fixed order — a
non-IDLE state blocks with reason not_idle, then the quiet-hours window
blocks with reason quiet_hours, then an unacceptable estimated cost blocks
with reason gas_too_high, each with shouldRebalance false and sizeToAdjust
0; only when none of these blocks does the out-of-range condition (Leg A out
of range, outOfRangeSince set — a nonzero stored timestamp, since the source
reads the nullable field through JS truthiness — and the elapsed time
strictly above the configured maximum duration) trigger with reason
out_of_range_too_long and sizeToAdjust = -hedgeDelta, with no hypothesis on
the drift magnitude: it takes priority over the delta-drift condition. -/
theorem evaluateRebalance_order_of_checks (cfg : BotConfig) (now : ℚ)
    (s : StateMachineState) (lp hd gas : ℚ) (inRange : Bool) :
    (s.currentState ≠ BotState.IDLE →
      (evaluateRebalance cfg now s lp hd gas inRange).decision =
        { shouldRebalance := false, reason := "not_idle", currentDelta := lp + hd,
          targetDelta := 0, sizeToAdjust := 0, estimatedSlippage := 0,
          estimatedGasCost := gas, blocked := true,
          blockReason := some (BlockReason.currentStateIs s.currentState) }) ∧
    (s.currentState = BotState.IDLE →
      isQuietHours cfg (utcMinutesOfDay now) = true →
      (evaluateRebalance cfg now s lp hd gas inRange).decision =
        { shouldRebalance := false, reason := "quiet_hours", currentDelta := lp + hd,
          targetDelta := 0, sizeToAdjust := 0, estimatedSlippage := 0,
          estimatedGasCost := gas, blocked := true,
          blockReason := some BlockReason.withinQuietHours }) ∧
    (s.currentState = BotState.IDLE →
      isQuietHours cfg (utcMinutesOfDay now) = false →
      isGasCostAcceptable cfg gas = false →
      (evaluateRebalance cfg now s lp hd gas inRange).decision =
        { shouldRebalance := false, reason := "gas_too_high", currentDelta := lp + hd,
          targetDelta := 0, sizeToAdjust := 0, estimatedSlippage := 0,
          estimatedGasCost := gas, blocked := true,
          blockReason := some (BlockReason.gasCostExceedsLimit gas) }) ∧
    (∀ t0 : ℚ,
      s.currentState = BotState.IDLE →
      isQuietHours cfg (utcMinutesOfDay now) = false →
      isGasCostAcceptable cfg gas = true →
      inRange = false →
      s.outOfRangeSince = some t0 →
      t0 ≠ 0 →
      now - t0 > cfg.MAX_OUT_OF_RANGE_DURATION_MS →
      (evaluateRebalance cfg now s lp hd gas inRange).decision =
        { shouldRebalance := true, reason := "out_of_range_too_long",
          currentDelta := lp + hd, targetDelta := 0, sizeToAdjust := -hd,
          estimatedSlippage := 0, estimatedGasCost := gas, blocked := false }) := by
  refine ⟨fun h1 => ?notIdle, fun h1 h2 => ?quiet, fun h1 h2 h3 => ?gas,
    fun t0 h1 h2 h3 h4 h5 h6 h7 => ?oor⟩
  case notIdle => simp [evaluateRebalance, calculateNetDelta, h1]
  case quiet => simp [evaluateRebalance, calculateNetDelta, h1, h2]
  case gas => simp [evaluateRebalance, calculateNetDelta, h1, h2, h3]
  case oor =>
    have hchk : outOfRangeTooLongCheck s.outOfRangeSince inRange now
        cfg.MAX_OUT_OF_RANGE_DURATION_MS = true := by
      simp [outOfRangeTooLongCheck, h4, h5, h6, h7]
    simp [evaluateRebalance, calculateNetDelta, h1, h2, h3, hchk]

/-- Witness for C2: with an IDLE state that has been out of range since
1 ms after the epoch, at a non-quiet instant just past the maximum duration,
the decision is out_of_range_too_long with the hedge fully unwound even
though the drift is zero. -/
theorem evaluateRebalance_order_of_checks_witness :
    (evaluateRebalance defaultConfig 3600002
        { getDefaultState with outOfRangeSince := some 1 }
        1000 (-1000) 0 false).decision =
      { shouldRebalance := true, reason := "out_of_range_too_long",
        currentDelta := 1000 + -1000, targetDelta := 0, sizeToAdjust := -(-1000),
        estimatedSlippage := 0, estimatedGasCost := 0, blocked := false } := by
  refine (evaluateRebalance_order_of_checks defaultConfig 3600002
      { getDefaultState with outOfRangeSince := some 1 }
      1000 (-1000) 0 false).2.2.2 1 rfl ?hq ?hg rfl rfl ?ht ?hd
  case hq => norm_num [isQuietHours, utcMinutesOfDay, defaultConfig]
  case hg => norm_num [isGasCostAcceptable, LAMPORTS_PER_SOL, defaultConfig]
  case ht => norm_num
  case hd => norm_num [defaultConfig]

/-- C3: when no blocking check fires and the out-of-range condition does
not trigger, evaluateRebalance computes netDelta = lpDelta + hedgeDelta and
driftPercent = |netDelta| / max(|lpDelta|, 1) and triggers delta_drift with
sizeToAdjust = netDelta exactly when driftPercent is at least the configured
threshold, otherwise it returns within_threshold with no action; with the
default 5% threshold, (IDLE, 1000, -1000, 0, true) gives within_threshold
and (IDLE, 1000, -900, 0, true) gives delta_drift with sizeToAdjust 100. -/
theorem evaluateRebalance_drift_threshold :
    (∀ (cfg : BotConfig) (now : ℚ) (s : StateMachineState) (lp hd gas : ℚ)
        (inRange : Bool),
      s.currentState = BotState.IDLE →
      isQuietHours cfg (utcMinutesOfDay now) = false →
      isGasCostAcceptable cfg gas = true →
      outOfRangeTooLongCheck s.outOfRangeSince inRange now
        cfg.MAX_OUT_OF_RANGE_DURATION_MS = false →
      (evaluateRebalance cfg now s lp hd gas inRange).decision =
        (if |lp + hd| / max |lp| 1 ≥ cfg.DELTA_DRIFT_THRESHOLD_PERCENT then
          { shouldRebalance := true, reason := "delta_drift",
            currentDelta := lp + hd, targetDelta := 0, sizeToAdjust := lp + hd,
            estimatedSlippage := 0, estimatedGasCost := gas, blocked := false }
        else
          { shouldRebalance := false, reason := "within_threshold",
            currentDelta := lp + hd, targetDelta := 0, sizeToAdjust := 0,
            estimatedSlippage := 0, estimatedGasCost := gas, blocked := false })) ∧
    ((evaluateRebalance defaultConfig 0 getDefaultState 1000 (-1000) 0 true).decision.shouldRebalance = false ∧
     (evaluateRebalance defaultConfig 0 getDefaultState 1000 (-1000) 0 true).decision.reason = "within_threshold") ∧
    ((evaluateRebalance defaultConfig 0 getDefaultState 1000 (-900) 0 true).decision.shouldRebalance = true ∧
     (evaluateRebalance defaultConfig 0 getDefaultState 1000 (-900) 0 true).decision.reason = "delta_drift" ∧
     (evaluateRebalance defaultConfig 0 getDefaultState 1000 (-900) 0 true).decision.sizeToAdjust = 100) := by
  refine ⟨fun cfg now s lp hd gas inRange h1 h2 h3 h4 => ?general, ?ex1, ?ex2⟩
  case general =>
    simp only [evaluateRebalance, calculateNetDelta, h1, h2, h3, h4]
    norm_num
    split_ifs <;> rfl
  case ex1 =>
    constructor <;>
      norm_num [evaluateRebalance, calculateNetDelta, defaultConfig,
        getDefaultState, isQuietHours, isGasCostAcceptable, utcMinutesOfDay,
        outOfRangeTooLongCheck, LAMPORTS_PER_SOL]
  case ex2 =>
    refine ⟨?ga, ?gb, ?gc⟩ <;>
      norm_num [evaluateRebalance, calculateNetDelta, defaultConfig,
        getDefaultState, isQuietHours, isGasCostAcceptable, utcMinutesOfDay,
        outOfRangeTooLongCheck, LAMPORTS_PER_SOL]

/-- Witness for C3: the general clause applied to an IDLE state with Leg A
delta 500 and hedge delta 0 at midnight UTC yields delta_drift. -/
theorem evaluateRebalance_drift_threshold_witness :
    (evaluateRebalance defaultConfig 0 getDefaultState 500 0 0 true).decision.reason
      = "delta_drift" := by
  have h := evaluateRebalance_drift_threshold.1 defaultConfig 0 getDefaultState
    500 0 0 true rfl
    (by norm_num [isQuietHours, utcMinutesOfDay, defaultConfig])
    (by norm_num [isGasCostAcceptable, LAMPORTS_PER_SOL, defaultConfig])
    rfl
  rw [h]
  norm_num [defaultConfig]

/-- C8 counterexample: two evaluateRebalance calls with identical values of
the five arguments (state, lpDelta, hedgeDelta, estimatedGasCost,
isLpInRange) return different decisions when they run at different
wall-clock instants — here 14:40 UTC (inside the default quiet window,
giving a quiet_hours block) versus midnight UTC (giving within_threshold) —
so the function is not a pure function of those five arguments alone. -/
theorem evaluateRebalance_clock_dependence :
    evaluateRebalance defaultConfig 52800000 getDefaultState 1000 (-1000) 0 true ≠
    evaluateRebalance defaultConfig 0 getDefaultState 1000 (-1000) 0 true := by
  intro h
  have h2 := congrArg (fun r => r.decision.reason) h
  norm_num [evaluateRebalance, calculateNetDelta, defaultConfig, getDefaultState,
    isQuietHours, isGasCostAcceptable, utcMinutesOfDay, outOfRangeTooLongCheck,
    LAMPORTS_PER_SOL] at h2
  exact absurd h2 (by decide)

/-- C8 amended: evaluateRebalance is deterministic in its five arguments
together with the configuration and the wall clock: the clock influences the
decision only through the quiet-hours test and the out-of-range-duration
test, so two calls agreeing on those two readings return identical results;
and its only effect besides the returned decision is writing the net delta
to the delta metrics gauge, once per call. -/
theorem evaluateRebalance_deterministic_given_clock
    (cfg : BotConfig) (t1 t2 : ℚ) (s : StateMachineState) (lp hd gas : ℚ)
    (r : Bool)
    (hq : isQuietHours cfg (utcMinutesOfDay t1) =
          isQuietHours cfg (utcMinutesOfDay t2))
    (ho : outOfRangeTooLongCheck s.outOfRangeSince r t1
            cfg.MAX_OUT_OF_RANGE_DURATION_MS =
          outOfRangeTooLongCheck s.outOfRangeSince r t2
            cfg.MAX_OUT_OF_RANGE_DURATION_MS) :
    evaluateRebalance cfg t1 s lp hd gas r =
      evaluateRebalance cfg t2 s lp hd gas r ∧
    (evaluateRebalance cfg t1 s lp hd gas r).deltaGaugeWrites = [lp + hd] := by
  constructor
  · unfold evaluateRebalance
    rw [hq, ho]
  · unfold evaluateRebalance
    simp only [calculateNetDelta]
    split_ifs <;> rfl

/-- Witness for the amended C8: midnight UTC and one minute past midnight
agree on both clock readings, so the calls agree. -/
theorem evaluateRebalance_deterministic_given_clock_witness :
    evaluateRebalance defaultConfig 0 getDefaultState 1 2 3 true =
      evaluateRebalance defaultConfig 60000 getDefaultState 1 2 3 true :=
  (evaluateRebalance_deterministic_given_clock defaultConfig 0 60000
    getDefaultState 1 2 3 true
    (by norm_num [isQuietHours, utcMinutesOfDay, defaultConfig]) rfl).1

/-- The construction parameters of a Backoff instance are untouched by any
number of getNextDelay state updates. -/
theorem backoff_iterate_fields (b : Backoff) (n : ℕ) :
    (b.iterate n).initialDelay = b.initialDelay ∧
    (b.iterate n).maxDelay = b.maxDelay ∧
    (b.iterate n).multiplier = b.multiplier := by
  induction n with
  | zero => exact ⟨rfl, rfl, rfl⟩
  | succ n ih => simpa [Backoff.iterate, Backoff.step] using ih

/-- The running delay after n getNextDelay calls is the exponential
initialDelay · multiplier ^ n capped at maxDelay. -/
theorem backoff_iterate_currentDelay (i mx mu : ℚ) (hi : 0 ≤ i) (him : i ≤ mx)
    (hmu : 1 ≤ mu) (n : ℕ) :
    ((mkBackoff i mx mu).iterate n).currentDelay = min (i * mu ^ n) mx := by
  induction n with
  | zero => simp [Backoff.iterate, mkBackoff, min_eq_left him]
  | succ n ih =>
    have hf := backoff_iterate_fields (mkBackoff i mx mu) n
    have hmx : (0 : ℚ) ≤ mx := le_trans hi him
    show (((mkBackoff i mx mu).iterate n).step).currentDelay = _
    rw [Backoff.step]
    simp only [ih, hf.2.1, hf.2.2]
    show min (min (i * mu ^ n) mx * mu) mx = min (i * mu ^ (n + 1)) mx
    by_cases hc : i * mu ^ n ≤ mx
    · rw [min_eq_left hc, pow_succ, ← mul_assoc]
    · push_neg at hc
      have hp : (0 : ℚ) ≤ i * mu ^ n := mul_nonneg hi (pow_nonneg (by linarith) n)
      rw [min_eq_right hc.le]
      rw [min_eq_right (le_mul_of_one_le_right hmx hmu)]
      have hstep : mx ≤ i * mu ^ (n + 1) := by
        calc mx ≤ i * mu ^ n := hc.le
          _ ≤ i * mu ^ n * mu := le_mul_of_one_le_right hp hmu
          _ = i * mu ^ (n + 1) := by rw [pow_succ, mul_assoc]
      rw [min_eq_right hstep]

/-- C6 counterexample: for a Backoff constructed with initialDelay 3 ms, the
Math.random() draw 0.9 makes the very first emitted delay 4 ms — the source
clamps the jittered value below at initialDelay and then applies Math.round,
and round(3.6) = 4 lies strictly above 1.25 × 3 = 3.75, so the first emitted
delay is not always inside [0.75 × initialDelay, 1.25 × initialDelay]. -/
theorem backoff_first_delay_outside_claimed_interval :
    ((mkBackoff 3 60000 2).getNextDelay (9 / 10)).1 = 4 ∧
    ¬ ((((mkBackoff 3 60000 2).getNextDelay (9 / 10)).1 : ℚ) ≤ 5 / 4 * 3) := by
  constructor
  · norm_num [Backoff.getNextDelay, mkBackoff, jsRound]
  · norm_num [Backoff.getNextDelay, mkBackoff, jsRound]

/-- C6 amended: every first emitted delay after construction or after
reset() is the nearest-integer rounding of a pre-rounding value in
[initialDelay, 1.25 × initialDelay] (the jitter is clamped below at
initialDelay, and rounding can add up to half a millisecond beyond the
1.25 bound); after sufficiently many emissions the running delay equals
maxDelay exactly, from which point every emitted delay is the rounding of a
value within ±25% of maxDelay; and reset() restores the instance to its
freshly constructed state, hence the first-call distribution. -/
theorem backoff_bounds_amended (i mx mu r : ℚ)
    (hi : 0 < i) (him : i ≤ mx) (hmu : 1 < mu) (hr0 : 0 ≤ r) (hr1 : r ≤ 1) :
    (∃ x, i ≤ x ∧ x ≤ 5 / 4 * i ∧
      ((mkBackoff i mx mu).getNextDelay r).1 = jsRound x) ∧
    (∃ N, ∀ n, N ≤ n → ((mkBackoff i mx mu).iterate n).currentDelay = mx) ∧
    (∀ n, ((mkBackoff i mx mu).iterate n).currentDelay = mx →
      ∃ x, 3 / 4 * mx ≤ x ∧ x ≤ 5 / 4 * mx ∧
        (((mkBackoff i mx mu).iterate n).getNextDelay r).1 = jsRound x) ∧
    (∀ n, ((mkBackoff i mx mu).iterate n).reset = mkBackoff i mx mu) := by
  have hmx : (0 : ℚ) ≤ mx := le_trans hi.le him
  refine ⟨?first, ?cap, ?atCap, ?resets⟩
  case first =>
    refine ⟨max i (i + i * 0.25 * (r * 2 - 1)), le_max_left _ _, ?ub, rfl⟩
    have hj : i * 0.25 * (r * 2 - 1) ≤ i * 0.25 * 1 :=
      mul_le_mul_of_nonneg_left (by linarith) (by positivity)
    apply max_le <;> nlinarith
  case cap =>
    obtain ⟨N, hN⟩ := pow_unbounded_of_one_lt (mx / i) hmu
    refine ⟨N, fun n hn => ?_⟩
    rw [backoff_iterate_currentDelay i mx mu hi.le him hmu.le n]
    have hpow : mu ^ N ≤ mu ^ n := pow_le_pow_right hmu.le hn
    have hNi : mx < i * mu ^ N := by
      rw [div_lt_iff hi] at hN
      linarith [hN]
    apply min_eq_right
    have hni : mx < i * mu ^ n := by nlinarith
    exact hni.le
  case atCap =>
    intro n hcur
    have hf := backoff_iterate_fields (mkBackoff i mx mu) n
    refine ⟨max i (mx + mx * 0.25 * (r * 2 - 1)), ?lb2, ?ub2, ?eq2⟩
    case lb2 =>
      have hj : mx * 0.25 * (-1) ≤ mx * 0.25 * (r * 2 - 1) :=
        mul_le_mul_of_nonneg_left (by linarith) (by positivity)
      have hlow : 3 / 4 * mx ≤ mx + mx * 0.25 * (r * 2 - 1) := by nlinarith
      exact le_trans hlow (le_max_right _ _)
    case ub2 =>
      have hj : mx * 0.25 * (r * 2 - 1) ≤ mx * 0.25 * 1 :=
        mul_le_mul_of_nonneg_left (by linarith) (by positivity)
      apply max_le <;> nlinarith
    case eq2 =>
      show jsRound (max ((mkBackoff i mx mu).iterate n).initialDelay
        (((mkBackoff i mx mu).iterate n).currentDelay +
          ((mkBackoff i mx mu).iterate n).currentDelay * 0.25 * (r * 2 - 1))) = _
      rw [hcur, hf.1]
      rfl
  case resets =>
    intro n
    have hf := backoff_iterate_fields (mkBackoff i mx mu) n
    have h1 := hf.1
    have h2 := hf.2.1
    have h3 := hf.2.2
    simp only [mkBackoff] at h1 h2 h3
    simp [Backoff.reset, mkBackoff, h1, h2, h3]

/-- Witness for the amended C6 at the config defaults (1000 ms initial,
60000 ms max, multiplier 2) with a Math.random() draw of 0.5. -/
theorem backoff_bounds_amended_witness :
    ∃ x, 1000 ≤ x ∧ x ≤ 5 / 4 * 1000 ∧
      ((mkBackoff 1000 60000 2).getNextDelay (1 / 2)).1 = jsRound x :=
  (backoff_bounds_amended 1000 60000 2 (1 / 2) (by norm_num) (by norm_num)
    (by norm_num) (by norm_num) (by norm_num)).1

/-- C7 counterexample: in an error iteration of the main loop at the config
defaults (10 s cycle interval, 1 s initial backoff, zero-jitter random draw
0.5, negligible cycle-body time) the loop records the failure, waits the
1000 ms backoff delay, and then still performs a 9000 ms fixed-interval
sleep — the fixed-interval sleep of lines 134-139 is not skipped on the
error path, it is only shortened by the elapsed time, which includes the
backoff wait. -/
theorem loop_error_iteration_still_sleeps :
    (loopIteration defaultConfig
        { state := some getDefaultState, backoff := mkBackoffFromConfig defaultConfig }
        { outcome := CycleOutcome.err "boom", otherElapsedMs := 0, backoffRand := 1 / 2 }).2 =
      [LoopEvent.recordedFailure "boom", LoopEvent.backoffWaited 1000,
       LoopEvent.sleptFixedInterval 9000] := by
  norm_num [loopIteration, mkBackoffFromConfig, mkBackoff, Backoff.getNextDelay,
    jsRound, defaultConfig]

/-- C7 amended: when an exception escapes the cycle body, the loop records
the failure via recordFailure, waits the backoff delay, and then still runs
the fixed-interval pacing sleep for the remainder max(0, interval − elapsed)
— where elapsed includes the backoff wait — whenever that remainder is
positive (so the fixed sleep disappears only when the backoff wait plus the
cycle body already consumed the interval); after any cycle that completes
without an escaped exception the backoff is reset to its initial delay and
no failure is recorded and no backoff wait occurs. -/
theorem loop_backoff_pacing (cfg : BotConfig) (m : OrchestratorModel)
    (s : StateMachineState) (msg : String) (dur rand : ℚ)
    (hs : m.state = some s) :
    (loopIteration cfg m
        { outcome := CycleOutcome.err msg, otherElapsedMs := dur, backoffRand := rand } =
      ({ state := some (recordFailure s msg),
         backoff := (m.backoff.getNextDelay rand).2 },
        [LoopEvent.recordedFailure msg,
         LoopEvent.backoffWaited (m.backoff.getNextDelay rand).1] ++
          (if max 0 (cfg.LOOP_INTERVAL_MS -
              (dur + ((m.backoff.getNextDelay rand).1 : ℚ))) > 0 then
            [LoopEvent.sleptFixedInterval
              (max 0 (cfg.LOOP_INTERVAL_MS -
                (dur + ((m.backoff.getNextDelay rand).1 : ℚ))))]
          else []))) ∧
    ((loopIteration cfg m
        { outcome := CycleOutcome.ok, otherElapsedMs := dur, backoffRand := rand }).1.backoff
      = m.backoff.reset ∧
     (loopIteration cfg m
        { outcome := CycleOutcome.ok, otherElapsedMs := dur, backoffRand := rand }).1.backoff.currentDelay
      = m.backoff.initialDelay ∧
     ∀ e ∈ (loopIteration cfg m
        { outcome := CycleOutcome.ok, otherElapsedMs := dur, backoffRand := rand }).2,
       ∃ ms, e = LoopEvent.sleptFixedInterval ms) := by
  refine ⟨?errCase, ?okReset, ?okDelay, ?okEvents⟩
  case errCase => simp [loopIteration, hs]
  case okReset => simp [loopIteration]
  case okDelay => simp [loopIteration, Backoff.reset]
  case okEvents =>
    intro e he
    simp only [loopIteration] at he
    split at he
    · simp at he
      exact ⟨_, he⟩
    · simp at he

/-- Witness for the amended C7: a successful cycle leaves the backoff at its
initial delay. -/
theorem loop_backoff_pacing_witness :
    (loopIteration defaultConfig
        { state := some getDefaultState, backoff := mkBackoff 1000 60000 2 }
        { outcome := CycleOutcome.ok, otherElapsedMs := 0, backoffRand := 0 }).1.backoff.currentDelay
      = (mkBackoff 1000 60000 2).initialDelay :=
  (loop_backoff_pacing defaultConfig
    { state := some getDefaultState, backoff := mkBackoff 1000 60000 2 }
    getDefaultState "x" 0 0 rfl).2.2.1

end TslaNeutral
